import Mathlib

/-!
Verification of the SMU record reconciliation and classification engine
(`smu/pipeline.py` and the `smu_utils_lib` operations exercised by
`smu/parser/smu_utils_lib_test.py`).

The embedding models:
* the duplicate-resolution pass of `pipeline.py`
  (`generate_keyed_conformers_for_duplicates`, `merge_duplicate_information`);
* the per-bond-topology summary combiner of `pipeline.py`
  (`merge_bond_topology_summaries`);
* the merge engine (`smu_utils_lib.merge_conformer`) and the fate
  classifier (`smu_utils_lib.determine_fate`,
  `smu_utils_lib.conformer_has_calculation_errors`), whose source file is
  not part of the repository snapshot: those are modelled from the
  specification, pinned where the spec is ambiguous by the behaviour the
  repository's own test file demands.

Numeric scalar values are modelled as rationals (the Python floats the
pipeline compares never leave plain decimal literals in the behaviour the
claims describe, and the 1e-6 tolerance comparison is exact arithmetic on
those literals).
-/

namespace Smu

/-- One 3D atom position of a geometry (`dataset_pb2.Geometry.atom_positions`
entries; coordinates modelled as rationals). -/
structure AtomPosition where
  x : ℚ
  y : ℚ
  z : ℚ
deriving DecidableEq, Repr

/-- One coordinate set (`dataset_pb2.Geometry`). -/
structure Geometry where
  atom_positions : List AtomPosition
deriving DecidableEq, Repr

/-- A structural bond topology descriptor (`dataset_pb2.BondTopology`):
its id plus the connectivity payload (atoms and bonds), carried so that
deep equality of descriptors is meaningful. -/
structure BondTopology where
  bond_topology_id : ℕ
  atoms : List ℕ
  bonds : List (ℕ × ℕ × ℕ)
deriving DecidableEq, Repr

namespace Pipeline

/-- The slice of `dataset_pb2.Conformer` that the duplicate-resolution pass
of `pipeline.py` reads and writes: the conformer id, the optional id of the
conformer this one was absorbed into (`duplicated_by`, 0 = unset), the ids
absorbed into this one (`duplicate_of`) and the initial geometries. -/
structure Conformer where
  conformer_id : ℕ
  duplicated_by : ℕ
  duplicate_of : List ℕ
  initial_geometries : List Geometry
deriving DecidableEq, Repr

/-- `pipeline.generate_keyed_conformers_for_duplicates`: every conformer
yields itself keyed by its `conformer_id`; additionally, if `duplicated_by`
is set, the conformer is yielded keyed by `duplicated_by`. -/
def generate_keyed_conformers_for_duplicates (conformer : Conformer) :
    List (ℕ × Conformer) :=
  (conformer.conformer_id, conformer) ::
    (if 0 < conformer.duplicated_by
     then [(conformer.duplicated_by, conformer)] else [])

/-- The body of the loop of `pipeline.merge_duplicate_information`: a
conformer whose id equals the group key is skipped (it is the main
conformer); any other member must point at the key via `duplicated_by`
(else `ValueError`); its id is appended to the main conformer's
`duplicate_of`, and when the id-derived bond topology ids agree its first
initial geometry is appended to the main conformer's geometries
(`conf.initial_geometries[0]` raises `IndexError` when there is none). -/
def merge_duplicate_step (conformer_id : ℕ) (main conf : Conformer) :
    Except String Conformer :=
  if conf.conformer_id = conformer_id then .ok main
  else if conf.duplicated_by ≠ conformer_id then
    .error "Conformer should have duplicated_by conformer_id"
  else
    let main' := { main with
                   duplicate_of := main.duplicate_of ++ [conf.conformer_id] }
    if conformer_id / 1000 = conf.conformer_id / 1000 then
      match conf.initial_geometries with
      | [] => .error "IndexError: initial_geometries is empty"
      | g :: _ => .ok { main' with
                        initial_geometries := main'.initial_geometries ++ [g] }
    else .ok main'

/-- `pipeline.merge_duplicate_information`: exactly one entry of the group
must carry the group's `conformer_id` (else `ValueError`); every other
entry is folded into a copy of it by `merge_duplicate_step`. -/
def merge_duplicate_information (conformer_id : ℕ)
    (conformers : List Conformer) : Except String Conformer :=
  match conformers.filter (fun c => c.conformer_id = conformer_id) with
  | [main] => conformers.foldlM (merge_duplicate_step conformer_id) main
  | _ => .error "Expected 1 conformers with id"

/-- The duplicate-resolution pass as wired in `pipeline.pipeline`:
`KeyedForDuplicates` (flat-map of `generate_keyed_conformers_for_duplicates`)
followed by `DupGroupByKey` and `MergeDupInfo`.  Grouping is modelled by
collecting, for each distinct key, every conformer emitted under that key
(the runtime guarantees no order among keys or group members; the model
fixes one). -/
def duplicate_pass (conformers : List Conformer) :
    List (ℕ × Except String Conformer) :=
  let keyed := conformers.flatMap generate_keyed_conformers_for_duplicates
  let keys := (keyed.map Prod.fst).dedup
  keys.map (fun k =>
    (k, merge_duplicate_information k
          ((keyed.filter (fun p => p.1 = k)).map Prod.snd)))

/-- The ids of the absorbed members of a group (members whose id is not the
group key), in group order. -/
def absorbed_ids (conformer_id : ℕ) (conformers : List Conformer) : List ℕ :=
  (conformers.filter (fun c => c.conformer_id ≠ conformer_id)).map
    Conformer.conformer_id

/-- The first initial geometries of the absorbed members of a group that
share the key's id-derived bond topology, in group order. -/
def absorbed_same_topology_geometries (conformer_id : ℕ)
    (conformers : List Conformer) : List Geometry :=
  conformers.filterMap (fun c =>
    if c.conformer_id ≠ conformer_id ∧
        conformer_id / 1000 = c.conformer_id / 1000
    then c.initial_geometries.head? else none)

end Pipeline

namespace Summary

/-- The named `count_*` counter fields of `dataset_pb2.BondTopologySummary`,
as enumerated by `CombineAndWriteBondTopologySummary.expand` (every proto
field whose name starts with `count_`). -/
inductive CField
  | count_attempted_conformers
  | count_kept_geometry
  | count_duplicates_same_topology
  | count_duplicates_different_topology
  | count_failed_geometry_optimization
  | count_missing_calculation
  | count_calculation_with_error
  | count_calculation_success
  | count_detected_match_with_error
  | count_detected_match_success
deriving DecidableEq, Repr

/-- `dataset_pb2.BondTopologySummary`: the bond topology descriptor plus the
named integer counters (one value per `count_*` field). -/
structure BondTopologySummary where
  bond_topology : BondTopology
  counts : CField → ℤ

/-- The inner `_merge_two_summaries` of
`pipeline.merge_bond_topology_summaries`: asserts the two bond topology ids
agree, then adds `summary1`'s value into `summary0` for every counter field
and returns `summary0` (which keeps its own `bond_topology`). -/
def merge_two_summaries (summary0 summary1 : BondTopologySummary) :
    Except String BondTopologySummary :=
  if summary0.bond_topology.bond_topology_id
      = summary1.bond_topology.bond_topology_id then
    .ok { summary0 with
          counts := fun name => summary0.counts name + summary1.counts name }
  else .error "assert failed: bond_topology_id mismatch"

/-- `pipeline.merge_bond_topology_summaries`: `functools.reduce` of
`_merge_two_summaries` over the iterable, a sentinel marking the first
element (which is copied and becomes the accumulator).  An empty iterable
returns the bare sentinel, modelled as `none`. -/
def merge_bond_topology_summaries :
    List BondTopologySummary → Except String (Option BondTopologySummary)
  | [] => .ok none
  | s :: rest => (rest.foldlM merge_two_summaries s).map some

/-- The bare summary emitted by `pipeline.bond_topology_summaries_from_csv`
for one bond topology of the enumeration CSV: the descriptor with all the
counts left 0. -/
def bare_summary (bt : BondTopology) : BondTopologySummary :=
  { bond_topology := bt, counts := fun _ => 0 }

/-- The counter vector of a summary (counts only, descriptor dropped). -/
def countsOf (s : BondTopologySummary) : CField → ℤ := s.counts

/-- The counter vector of the result of the reduction, when it succeeded. -/
def reducedCounts (summaries : List BondTopologySummary) :
    Except String (Option (CField → ℤ)) :=
  (merge_bond_topology_summaries summaries).map (Option.map countsOf)

end Summary

namespace Merge

/-!
The merge engine lives in `smu_utils_lib.merge_conformer`, whose source
file is not part of the repository snapshot (only its test file
`smu/parser/smu_utils_lib_test.py` and its caller `pipeline.py` are).  The
definitions below are modelled from the specification's Merge Engine
contract, with the behaviour the test file demands where it is more
specific than the spec's words.
-/

/-- Modelled from the spec: the origin of a partial record.  The spec
distinguishes stage-1-origin records, stage-2-origin records and
duplicate-marker records; the library code that infers a record's origin
from its populated fields is missing from the snapshot, so the origin is
carried explicitly. -/
inductive Origin
  | stage1
  | stage2
  | duplicate
deriving DecidableEq, Repr

/-- Modelled from the spec: the scalar property/error/geometry fields of a
partial record, one slot per field of the fixed field set (positional), a
`none` slot meaning the field is absent/not computed. -/
structure Properties where
  scalars : List (Option ℚ)
deriving DecidableEq, Repr

/-- Modelled from the spec: the slice of a partial record
(`dataset_pb2.Conformer`) that the merge engine reads and writes. -/
structure Conformer where
  conformer_id : ℕ
  origin : Origin
  bond_topologies : List BondTopology
  initial_geometries : List Geometry
  optimized_geometry : Option Geometry
  properties : Properties
  duplicate_of : List ℕ
  duplicated_by : ℕ
deriving DecidableEq, Repr

/-- Modelled from the spec: the merge failure taxonomy — duplicate
same-stage source (`DuplicateSourceError`), structural topology mismatch
(`TopologyMismatchError`), and a partial record that is malformed when the
merge begins (more than one bond topology or initial geometry), all raised
as `ValueError` by the library. -/
inductive MergeError
  | duplicateSourceError
  | topologyMismatchError
  | structuralError
deriving DecidableEq, Repr

/-- Modelled from the spec: a conflict report row — the entity id and the
two sources' field values (`{id, field-pair before/after from both
sources}`). -/
structure MergeConflict where
  conformer_id : ℕ
  stage1_values : List (Option ℚ)
  stage2_values : List (Option ℚ)
deriving DecidableEq, Repr

/-- The absolute tolerance of the scalar comparison: `1e-6`. -/
def mergeTolerance : ℚ := 1 / 1000000

/-- Modelled from the spec: merging one scalar field slot of a stage-1
record (left) with the same slot of a stage-2 record (right).  Returns the
merged slot and whether the slot is in conflict: a stage-2 value of exactly
`-1` is kept without flagging a conflict; values equal within the absolute
tolerance match and the stage-2 value is kept; otherwise the slot is
flagged as a conflict and the stage-2 value is still kept.  A field present
on one side only is kept from that side. -/
def merge_scalar : Option ℚ → Option ℚ → Option ℚ × Bool
  | some a, some b =>
      if b = -1 then (some b, false)
      else if |a - b| ≤ mergeTolerance then (some b, false)
      else (some b, true)
  | none, some b => (some b, false)
  | some a, none => (some a, false)
  | none, none => (none, false)

/-- The merged scalar slots of a stage-1/stage-2 pair. -/
def merge_scalar_values (s1 s2 : List (Option ℚ)) : List (Option ℚ) :=
  (List.zipWith merge_scalar s1 s2).map Prod.fst

/-- The per-slot conflict flags of a stage-1/stage-2 pair. -/
def merge_scalar_flags (s1 s2 : List (Option ℚ)) : List Bool :=
  (List.zipWith merge_scalar s1 s2).map Prod.snd

/-- Modelled from the spec: merging a duplicate-marker record into a base
record copies the marker's `duplicate_of`/`duplicated_by` fields into the
base (union of the `duplicate_of` sets; the base's `duplicated_by` wins
when already set). -/
def merge_duplicate_into (base marker : Conformer) : Conformer :=
  { base with
    duplicate_of := base.duplicate_of
      ++ marker.duplicate_of.filter (fun x => decide (x ∉ base.duplicate_of)),
    duplicated_by := if base.duplicated_by = 0 then marker.duplicated_by
                     else base.duplicated_by }

/-- Modelled from the spec: merging the stage-1 record `conf1` with the
stage-2 record `conf2`.  Each record must carry exactly one bond topology
and at most one initial geometry; the two bond topologies must be
identical by deep equality; the scalar slots are merged by `merge_scalar`
with stage-2 precedence; at most one conflict report is produced, carrying
the id and both sources' scalar values, exactly when some slot is in
conflict.  Stage-2-only structure (the optimized geometry) is kept, and
the duplicate bookkeeping fields of both sides are united. -/
def merge_stage1_stage2 (conf1 conf2 : Conformer) :
    Except MergeError (Conformer × Option MergeConflict) :=
  if conf1.bond_topologies.length ≠ 1 ∨ conf2.bond_topologies.length ≠ 1
      ∨ 1 < conf1.initial_geometries.length
      ∨ 1 < conf2.initial_geometries.length then
    .error .structuralError
  else if conf1.bond_topologies ≠ conf2.bond_topologies then
    .error .topologyMismatchError
  else
    let merged : Conformer :=
      { conf2 with
        properties := ⟨merge_scalar_values conf1.properties.scalars
                        conf2.properties.scalars⟩,
        initial_geometries := if conf2.initial_geometries.isEmpty
                              then conf1.initial_geometries
                              else conf2.initial_geometries,
        duplicate_of := conf1.duplicate_of
          ++ conf2.duplicate_of.filter (fun x => decide (x ∉ conf1.duplicate_of)),
        duplicated_by := if conf1.duplicated_by ≠ 0 then conf1.duplicated_by
                         else conf2.duplicated_by }
    let conflict : Option MergeConflict :=
      if (merge_scalar_flags conf1.properties.scalars
            conf2.properties.scalars).any id then
        some ⟨conf2.conformer_id, conf1.properties.scalars,
              conf2.properties.scalars⟩
      else none
    .ok (merged, conflict)

/-- Modelled from the spec: `smu_utils_lib.merge_conformer`.  Two records
of the same stage fail with the duplicate-source error; a duplicate-marker
record is folded into the other record; a stage-1/stage-2 pair (in either
argument order) is merged by `merge_stage1_stage2`. -/
def merge_conformer (conf1 conf2 : Conformer) :
    Except MergeError (Conformer × Option MergeConflict) :=
  match conf1.origin, conf2.origin with
  | .stage1, .stage1 => .error .duplicateSourceError
  | .stage2, .stage2 => .error .duplicateSourceError
  | .duplicate, _ => .ok (merge_duplicate_into conf2 conf1, none)
  | _, .duplicate => .ok (merge_duplicate_into conf1 conf2, none)
  | .stage1, .stage2 => merge_stage1_stage2 conf1 conf2
  | .stage2, .stage1 => merge_stage1_stage2 conf2 conf1

end Merge

namespace Fate

/-!
The fate classifier lives in `smu_utils_lib.determine_fate` and
`smu_utils_lib.conformer_has_calculation_errors`, whose source file is not
part of the repository snapshot.  The definitions below are modelled from
the specification's Fate Classifier contract; where the spec and the
repository's own test file (`smu/parser/smu_utils_lib_test.py`, classes
`ConformerErrorTest` and `DetermineFateTest`) disagree, the tests — which
are repository code — pin the behaviour:
* `error_nstat1` is a success when its value is 1 and also when it is 3
  (`test_stage2_nstat1_is_3`);
* `error_nsvg09` is the field with the polarity inverted relative to the
  other fields: its success sentinel is 0 and any nonzero value is an
  error (`test_stage2_error_in_0_expected_field` sets it to 1 and expects
  an error), while every other field's success sentinel is 1;
* the geometry-failure table on `error_nstat1` is consulted before the
  presence of stage-2 results (`test_geometry_failures` classifies a
  stage-1-only conformer by the table).
-/

/-- The named integer fields of `dataset_pb2.Properties.Errors` that the
modelled classifier consults (the fields the test file exercises). -/
inductive ErrField
  | error_nstat1
  | error_nstatc
  | error_nstatt
  | error_frequencies
  | error_atomic_analysis
  | error_rotational_modes
  | error_nsvg09
deriving DecidableEq, Repr

/-- Every modelled error field. -/
def ErrField.fields : List ErrField :=
  [.error_nstat1, .error_nstatc, .error_nstatt, .error_frequencies,
   .error_atomic_analysis, .error_rotational_modes, .error_nsvg09]

/-- Modelled from the spec and pinned by the tests: whether a value of one
error field signals success.  `error_nstat1` succeeds on 1 and also on 3
(the documented quirk); `error_nsvg09` has the inverted polarity — it
succeeds exactly on 0; every other field succeeds exactly on 1. -/
def errValueIsOk : ErrField → ℤ → Bool
  | .error_nstat1, v => v == 1 || v == 3
  | .error_nsvg09, v => v == 0
  | _, v => v == 1

/-- Modelled from the spec: the slice of a record the classifier reads —
its id, the id it was absorbed into (`duplicated_by`, 0 = unset), the
error-code fields, and whether any stage-2-derived properties are present
at all. -/
structure Conformer where
  conformer_id : ℕ
  duplicated_by : ℕ
  errors : ErrField → ℤ
  has_stage2_properties : Bool

/-- The fate categories of `dataset_pb2.Conformer.FateCategory` that the
classifier can assign. -/
inductive FateCategory
  | FATE_DUPLICATE_SAME_TOPOLOGY
  | FATE_DUPLICATE_DIFFERENT_TOPOLOGY
  | FATE_GEOMETRY_OPTIMIZATION_PROBLEM
  | FATE_DISASSOCIATED
  | FATE_FORCE_CONSTANT_FAILURE
  | FATE_DISCARDED_OTHER
  | FATE_NO_CALCULATION_RESULTS
  | FATE_CALCULATION_WITH_ERROR
  | FATE_SUCCESS
deriving DecidableEq, Repr

/-- Modelled from the spec:
`smu_utils_lib.conformer_has_calculation_errors` — whether any error field
signals a fault, under the per-field success sentinels of
`errValueIsOk`. -/
def conformer_has_calculation_errors (conformer : Conformer) : Bool :=
  !(ErrField.fields.all (fun f => errValueIsOk f (conformer.errors f)))

/-- Modelled from the spec: `smu_utils_lib.determine_fate`.  Ordered rules,
first match wins: a record absorbed into another is a duplicate (same or
different topology by the id-derived topology ids); then the fixed
`error_nstat1` value-to-category table of geometry failures; then a record
with no stage-2 results at all; then any error field signalling a fault;
else success. -/
def determine_fate (conformer : Conformer) : FateCategory :=
  if 0 < conformer.duplicated_by then
    if conformer.duplicated_by / 1000 = conformer.conformer_id / 1000 then
      .FATE_DUPLICATE_SAME_TOPOLOGY
    else .FATE_DUPLICATE_DIFFERENT_TOPOLOGY
  else if conformer.errors .error_nstat1 = 2 then
    .FATE_GEOMETRY_OPTIMIZATION_PROBLEM
  else if conformer.errors .error_nstat1 = 5 then .FATE_DISASSOCIATED
  else if conformer.errors .error_nstat1 = 4 then .FATE_FORCE_CONSTANT_FAILURE
  else if conformer.errors .error_nstat1 = 6 then .FATE_DISCARDED_OTHER
  else if !conformer.has_stage2_properties then .FATE_NO_CALCULATION_RESULTS
  else if conformer_has_calculation_errors conformer then
    .FATE_CALCULATION_WITH_ERROR
  else .FATE_SUCCESS

/-- The fixed geometry-failure table of the classifier, on its own: the
`error_nstat1` values that signal a known geometry failure category
(`test_geometry_failures`). -/
def geometryFailureFate : ℤ → Option FateCategory
  | 2 => some .FATE_GEOMETRY_OPTIMIZATION_PROBLEM
  | 5 => some .FATE_DISASSOCIATED
  | 4 => some .FATE_FORCE_CONSTANT_FAILURE
  | 6 => some .FATE_DISCARDED_OTHER
  | _ => none

end Fate

/-! Concrete records used to instantiate the theorems below. -/

/-- A sample bond topology with id 618451. -/
def sampleBT : BondTopology := ⟨618451, [6, 6, 8], [(0, 1, 1), (1, 2, 2)]⟩

/-- A sample geometry. -/
def sampleGeomA : Geometry := ⟨[⟨1, 2, 3⟩]⟩

/-- A second sample geometry. -/
def sampleGeomB : Geometry := ⟨[⟨4, 5, 6⟩, ⟨7, 8, 9⟩]⟩

namespace Merge

/-- A sample stage-1 partial record. -/
def sampleStage1 : Conformer :=
  { conformer_id := 618451001
    origin := .stage1
    bond_topologies := [sampleBT]
    initial_geometries := [sampleGeomA]
    optimized_geometry := none
    properties := ⟨[some 1, some 2, none]⟩
    duplicate_of := []
    duplicated_by := 0 }

/-- A sample stage-2 partial record whose first scalar is within `1e-7` of
the stage-1 record's. -/
def sampleStage2Near : Conformer :=
  { conformer_id := 618451001
    origin := .stage2
    bond_topologies := [sampleBT]
    initial_geometries := [sampleGeomA]
    optimized_geometry := some sampleGeomB
    properties := ⟨[some (1 + 1 / 10000000), some 2, some 7]⟩
    duplicate_of := []
    duplicated_by := 0 }

/-- A sample stage-2 partial record whose first scalar differs from the
stage-1 record's by 1. -/
def sampleStage2Far : Conformer :=
  { sampleStage2Near with properties := ⟨[some 2, some 2, some 7]⟩ }

/-- A sample stage-2 partial record whose first scalar is the sentinel
`-1` (differing from the stage-1 record's value by 2). -/
def sampleStage2Minus1 : Conformer :=
  { sampleStage2Near with properties := ⟨[some (-1), some 2, some 7]⟩ }

end Merge

namespace Fate

/-- Sample error values: every field at its success sentinel (1, except
`error_nsvg09` whose success sentinel is 0). -/
def okErrors : ErrField → ℤ
  | .error_nsvg09 => 0
  | _ => 1

/-- Sample error values: like `okErrors` but with `error_nsvg09` at 1. -/
def nsvg09OneErrors : ErrField → ℤ
  | _ => 1

/-- Sample error values: like `okErrors` but with `error_nstat1` at 3. -/
def nstat1ThreeErrors : ErrField → ℤ
  | .error_nstat1 => 3
  | .error_nsvg09 => 0
  | _ => 1

/-- A sample non-duplicate record with stage-2 results and every error
field at its success sentinel. -/
def sampleClean : Conformer :=
  { conformer_id := 618451001
    duplicated_by := 0
    errors := okErrors
    has_stage2_properties := true }

/-- `sampleClean` with `error_nsvg09` at 1 (all other fields at 1 as
well, their success sentinel). -/
def sampleNsvgOne : Conformer := { sampleClean with errors := nsvg09OneErrors }

/-- `sampleClean` with `error_nstat1` at 3. -/
def sampleNstatThree : Conformer :=
  { sampleClean with errors := nstat1ThreeErrors }

end Fate

namespace Pipeline

/-- A sample primary conformer (`duplicated_by` unset). -/
def samplePrimary : Conformer := ⟨618451001, 0, [], [sampleGeomA]⟩

/-- A sample absorbed conformer: same id-derived bond topology as the
primary, pointing at it via `duplicated_by`, with one initial geometry. -/
def sampleDupSame : Conformer := ⟨618451002, 618451001, [], [sampleGeomB]⟩

/-- A second absorbed same-topology conformer. -/
def sampleDupSame2 : Conformer := ⟨618451003, 618451001, [], [sampleGeomA]⟩

/-- An absorbed conformer with a different id-derived bond topology. -/
def sampleDupDiff : Conformer := ⟨618452001, 618451001, [], [sampleGeomB]⟩

/-- An absorbed same-topology conformer with no initial geometry. -/
def sampleDupNoGeom : Conformer := ⟨618451004, 618451001, [], []⟩

end Pipeline

namespace Summary

/-- A sample summary for topology 618451 with every counter at 1. -/
def sampleSummaryA : BondTopologySummary := ⟨sampleBT, fun _ => 1⟩

/-- A sample summary for topology 618451 with every counter at 2. -/
def sampleSummaryB : BondTopologySummary := ⟨sampleBT, fun _ => 2⟩

end Summary

end Smu

/-!
### Theorems

The merge engine (claims C1, C4, C6).
-/

namespace Smu.Merge

theorem merge_scalar_fst (a b : ℚ) :
    (merge_scalar (some a) (some b)).1 = some b := by
  by_cases hb : b = -1 <;> by_cases ht : |a - b| ≤ mergeTolerance <;>
    simp [merge_scalar, hb, ht]

theorem merge_scalar_values_getElem (s1 s2 : List (Option ℚ)) (i : ℕ)
    (a b : Option ℚ) (h1 : s1[i]? = some a) (h2 : s2[i]? = some b) :
    (merge_scalar_values s1 s2)[i]? = some (merge_scalar a b).1 := by
  rw [merge_scalar_values, List.getElem?_map,
    List.getElem?_zipWith_eq_some.mpr ⟨a, b, h1, h2, rfl⟩, Option.map_some']

theorem merge_scalar_flags_getElem (s1 s2 : List (Option ℚ)) (i : ℕ)
    (a b : Option ℚ) (h1 : s1[i]? = some a) (h2 : s2[i]? = some b) :
    (merge_scalar_flags s1 s2)[i]? = some (merge_scalar a b).2 := by
  rw [merge_scalar_flags, List.getElem?_map,
    List.getElem?_zipWith_eq_some.mpr ⟨a, b, h1, h2, rfl⟩, Option.map_some']

theorem merge_scalar_flags_all_false (s1 s2 : List (Option ℚ))
    (h : ∀ (i : ℕ) (a b : ℚ), s1[i]? = some (some a) →
          s2[i]? = some (some b) → |a - b| ≤ mergeTolerance ∨ b = -1) :
    (merge_scalar_flags s1 s2).any id = false := by
  rw [List.any_eq_false]
  intro x hx
  rw [merge_scalar_flags] at hx
  obtain ⟨p, hp, rfl⟩ := List.mem_map.mp hx
  obtain ⟨i, hi⟩ := List.mem_iff_getElem?.mp hp
  obtain ⟨a, b, ha, hb, heq⟩ := List.getElem?_zipWith_eq_some.mp hi
  subst heq
  match a, b with
  | none, none => simp [merge_scalar]
  | none, some b => simp [merge_scalar]
  | some a, none => simp [merge_scalar]
  | some a, some b =>
    rcases h i a b ha hb with ht | hm1
    · by_cases hb1 : b = -1 <;> simp [merge_scalar, hb1, ht]
    · simp [merge_scalar, hm1]

theorem merge_scalar_flags_any_true (s1 s2 : List (Option ℚ)) (i : ℕ)
    (a b : ℚ) (h1 : s1[i]? = some (some a)) (h2 : s2[i]? = some (some b))
    (hfar : ¬ |a - b| ≤ mergeTolerance) (hb1 : b ≠ -1) :
    (merge_scalar_flags s1 s2).any id = true := by
  rw [List.any_eq_true]
  refine ⟨true, ?_, rfl⟩
  have hflag := merge_scalar_flags_getElem s1 s2 i (some a) (some b) h1 h2
  have hsnd : (merge_scalar (some a) (some b)).2 = true := by
    simp [merge_scalar, hb1, hfar]
  exact List.getElem?_mem (by rw [hflag, hsnd])

theorem merge_conformer_stage1_stage2 (conf1 conf2 : Conformer)
    (h1 : conf1.origin = .stage1) (h2 : conf2.origin = .stage2) :
    merge_conformer conf1 conf2 = merge_stage1_stage2 conf1 conf2 := by
  rw [merge_conformer.eq_def, h1, h2]

theorem merge_stage1_stage2_ok (conf1 conf2 : Conformer)
    (hbt1 : conf1.bond_topologies.length = 1)
    (hbt : conf2.bond_topologies = conf1.bond_topologies)
    (hg1 : conf1.initial_geometries.length ≤ 1)
    (hg2 : conf2.initial_geometries.length ≤ 1) :
    merge_stage1_stage2 conf1 conf2 =
      .ok ({ conf2 with
             properties := ⟨merge_scalar_values conf1.properties.scalars
                             conf2.properties.scalars⟩,
             initial_geometries := if conf2.initial_geometries.isEmpty
                                   then conf1.initial_geometries
                                   else conf2.initial_geometries,
             duplicate_of := conf1.duplicate_of ++ conf2.duplicate_of.filter
               (fun x => decide (x ∉ conf1.duplicate_of)),
             duplicated_by := if conf1.duplicated_by ≠ 0
                              then conf1.duplicated_by
                              else conf2.duplicated_by },
           if (merge_scalar_flags conf1.properties.scalars
                 conf2.properties.scalars).any id then
             some ⟨conf2.conformer_id, conf1.properties.scalars,
                   conf2.properties.scalars⟩
           else none) := by
  have hbt2 : conf2.bond_topologies.length = 1 := by rw [hbt, hbt1]
  rw [merge_stage1_stage2, if_neg (by push_neg; exact ⟨hbt1, hbt2, hg1, hg2⟩),
    if_neg (by rw [hbt]; exact fun h => h rfl)]

/-- Claim C6: merging two stage-1 partial records, or two stage-2 partial
records, for the same entity id always fails with the duplicate-source
error. -/
theorem merge_conformer_same_stage (conf1 conf2 : Conformer)
    (hid : conf1.conformer_id = conf2.conformer_id)
    (h : (conf1.origin = .stage1 ∧ conf2.origin = .stage1) ∨
         (conf1.origin = .stage2 ∧ conf2.origin = .stage2)) :
    merge_conformer conf1 conf2 = .error .duplicateSourceError := by
  rcases h with ⟨ha, hb⟩ | ⟨ha, hb⟩ <;> rw [merge_conformer.eq_def, ha, hb]

/-- Witness for C6 at two concrete stage-2 records. -/
theorem merge_conformer_same_stage_witness :
    merge_conformer sampleStage2Far sampleStage2Near =
      .error .duplicateSourceError :=
  merge_conformer_same_stage sampleStage2Far sampleStage2Near rfl
    (Or.inr ⟨rfl, rfl⟩)

end Smu.Merge

namespace Smu.Merge

/-- Claim C1 (amended): for every merge of a stage-1 and a stage-2 partial
record with one entity id and deep-equal bond topology, the merge succeeds
and, for every scalar field present in both, the merged record retains the
stage-2 value; if every such field pair is within the absolute tolerance
`1e-6` or has stage-2 value exactly `-1`, the merge reports no conflict;
if some field pair differs by more than the tolerance and its stage-2
value is not the sentinel `-1`, the merge reports exactly one conflict
entry carrying both sources' values. -/
theorem merge_conformer_tolerance (conf1 conf2 : Conformer)
    (h1 : conf1.origin = .stage1) (h2 : conf2.origin = .stage2)
    (hid : conf1.conformer_id = conf2.conformer_id)
    (hbt1 : conf1.bond_topologies.length = 1)
    (hbt : conf2.bond_topologies = conf1.bond_topologies)
    (hg1 : conf1.initial_geometries.length ≤ 1)
    (hg2 : conf2.initial_geometries.length ≤ 1) :
    ∃ merged conflict,
      merge_conformer conf1 conf2 = .ok (merged, conflict) ∧
      (∀ (i : ℕ) (a b : ℚ),
        conf1.properties.scalars[i]? = some (some a) →
        conf2.properties.scalars[i]? = some (some b) →
        merged.properties.scalars[i]? = some (some b)) ∧
      ((∀ (i : ℕ) (a b : ℚ),
        conf1.properties.scalars[i]? = some (some a) →
        conf2.properties.scalars[i]? = some (some b) →
        |a - b| ≤ mergeTolerance ∨ b = -1) → conflict = none) ∧
      (∀ (i : ℕ) (a b : ℚ),
        conf1.properties.scalars[i]? = some (some a) →
        conf2.properties.scalars[i]? = some (some b) →
        ¬ |a - b| ≤ mergeTolerance → b ≠ -1 →
        conflict = some ⟨conf2.conformer_id, conf1.properties.scalars,
                         conf2.properties.scalars⟩) := by
  refine ⟨_, _,
    (merge_conformer_stage1_stage2 conf1 conf2 h1 h2).trans
      (merge_stage1_stage2_ok conf1 conf2 hbt1 hbt hg1 hg2), ?_, ?_, ?_⟩
  · intro i a b ha hb
    show (merge_scalar_values conf1.properties.scalars
           conf2.properties.scalars)[i]? = some (some b)
    rw [merge_scalar_values_getElem conf1.properties.scalars
      conf2.properties.scalars i (some a) (some b) ha hb, merge_scalar_fst]
  · intro hall
    show (if (merge_scalar_flags conf1.properties.scalars
               conf2.properties.scalars).any id then
            some (MergeConflict.mk conf2.conformer_id conf1.properties.scalars
                  conf2.properties.scalars)
          else none) = none
    rw [merge_scalar_flags_all_false conf1.properties.scalars
      conf2.properties.scalars hall]
    rfl
  · intro i a b ha hb hfar hb1
    show (if (merge_scalar_flags conf1.properties.scalars
               conf2.properties.scalars).any id then
            some (MergeConflict.mk conf2.conformer_id conf1.properties.scalars
                  conf2.properties.scalars)
          else none) = some ⟨conf2.conformer_id, conf1.properties.scalars,
                             conf2.properties.scalars⟩
    rw [merge_scalar_flags_any_true conf1.properties.scalars
      conf2.properties.scalars i a b ha hb hfar hb1]
    rfl

/-- Witness for C1 at two concrete records. -/
theorem merge_conformer_tolerance_witness :
    ∃ merged conflict,
      merge_conformer sampleStage1 sampleStage2Near = .ok (merged, conflict) ∧
      (∀ (i : ℕ) (a b : ℚ),
        sampleStage1.properties.scalars[i]? = some (some a) →
        sampleStage2Near.properties.scalars[i]? = some (some b) →
        merged.properties.scalars[i]? = some (some b)) ∧
      ((∀ (i : ℕ) (a b : ℚ),
        sampleStage1.properties.scalars[i]? = some (some a) →
        sampleStage2Near.properties.scalars[i]? = some (some b) →
        |a - b| ≤ mergeTolerance ∨ b = -1) → conflict = none) ∧
      (∀ (i : ℕ) (a b : ℚ),
        sampleStage1.properties.scalars[i]? = some (some a) →
        sampleStage2Near.properties.scalars[i]? = some (some b) →
        ¬ |a - b| ≤ mergeTolerance → b ≠ -1 →
        conflict = some ⟨sampleStage2Near.conformer_id,
                         sampleStage1.properties.scalars,
                         sampleStage2Near.properties.scalars⟩) :=
  merge_conformer_tolerance sampleStage1 sampleStage2Near rfl rfl rfl rfl rfl
    (by exact Nat.le_refl 1) (by exact Nat.le_refl 1)

/-- Counterexample to C1 as stated: a stage-1/stage-2 merge whose first
scalar field is present in both and differs by 2 (far beyond the `1e-6`
tolerance) with stage-2 value `-1` reports no conflict entry at all,
because the `-1` sentinel bypasses the tolerance check. -/
theorem merge_conformer_tolerance_counterexample :
    (merge_conformer sampleStage1 sampleStage2Minus1).map Prod.snd
      = .ok none ∧
    sampleStage1.properties.scalars[0]? = some (some 1) ∧
    sampleStage2Minus1.properties.scalars[0]? = some (some (-1 : ℚ)) ∧
    ¬ |(1 : ℚ) - (-1)| ≤ mergeTolerance := by
  refine ⟨?_, rfl, rfl, by rw [abs_le]; norm_num [mergeTolerance]⟩
  rw [merge_conformer_stage1_stage2 sampleStage1 sampleStage2Minus1 rfl rfl,
    merge_stage1_stage2_ok sampleStage1 sampleStage2Minus1 rfl rfl
      (by exact Nat.le_refl 1) (by exact Nat.le_refl 1)]
  have hflags : (merge_scalar_flags sampleStage1.properties.scalars
      sampleStage2Minus1.properties.scalars).any id = false := by
    apply merge_scalar_flags_all_false
    intro i a b ha hb
    match i with
    | 0 =>
      rw [show sampleStage1.properties.scalars[0]? = some (some 1) from rfl]
        at ha
      rw [show sampleStage2Minus1.properties.scalars[0]?
            = some (some (-1 : ℚ)) from rfl] at hb
      cases ha; cases hb
      exact Or.inr rfl
    | 1 =>
      rw [show sampleStage1.properties.scalars[1]? = some (some 2) from rfl]
        at ha
      rw [show sampleStage2Minus1.properties.scalars[1]?
            = some (some 2) from rfl] at hb
      cases ha; cases hb
      left
      rw [abs_le]
      norm_num [mergeTolerance]
    | 2 =>
      rw [show sampleStage1.properties.scalars[2]? = some none from rfl] at ha
      cases ha
    | (n + 3) =>
      rw [show sampleStage1.properties.scalars[n + 3]? = none from rfl] at ha
      cases ha
  rw [hflags]
  rfl

/-- Claim C4: in a stage-1/stage-2 merge, a scalar field whose stage-2
value is exactly `-1` is never flagged as a conflict regardless of the
stage-1 value, and the merged record keeps the `-1`. -/
theorem merge_conformer_minus1 (conf1 conf2 : Conformer)
    (h1 : conf1.origin = .stage1) (h2 : conf2.origin = .stage2)
    (hid : conf1.conformer_id = conf2.conformer_id)
    (hbt1 : conf1.bond_topologies.length = 1)
    (hbt : conf2.bond_topologies = conf1.bond_topologies)
    (hg1 : conf1.initial_geometries.length ≤ 1)
    (hg2 : conf2.initial_geometries.length ≤ 1)
    (i : ℕ) (a : ℚ)
    (ha : conf1.properties.scalars[i]? = some (some a))
    (hb : conf2.properties.scalars[i]? = some (some (-1 : ℚ))) :
    ∃ merged conflict,
      merge_conformer conf1 conf2 = .ok (merged, conflict) ∧
      merged.properties.scalars[i]? = some (some (-1 : ℚ)) ∧
      (merge_scalar_flags conf1.properties.scalars
        conf2.properties.scalars)[i]? = some false := by
  refine ⟨_, _,
    (merge_conformer_stage1_stage2 conf1 conf2 h1 h2).trans
      (merge_stage1_stage2_ok conf1 conf2 hbt1 hbt hg1 hg2), ?_, ?_⟩
  · show (merge_scalar_values conf1.properties.scalars
           conf2.properties.scalars)[i]? = some (some (-1 : ℚ))
    rw [merge_scalar_values_getElem conf1.properties.scalars
      conf2.properties.scalars i (some a) (some (-1)) ha hb, merge_scalar_fst]
  · rw [merge_scalar_flags_getElem conf1.properties.scalars
      conf2.properties.scalars i (some a) (some (-1)) ha hb]
    simp [merge_scalar]

/-- Witness for C4 at two concrete records. -/
theorem merge_conformer_minus1_witness :
    ∃ merged conflict,
      merge_conformer sampleStage1 sampleStage2Minus1 = .ok (merged, conflict) ∧
      merged.properties.scalars[0]? = some (some (-1 : ℚ)) ∧
      (merge_scalar_flags sampleStage1.properties.scalars
        sampleStage2Minus1.properties.scalars)[0]? = some false :=
  merge_conformer_minus1 sampleStage1 sampleStage2Minus1 rfl rfl rfl rfl rfl
    (by exact Nat.le_refl 1) (by exact Nat.le_refl 1) 0 1 rfl rfl

end Smu.Merge

namespace Smu.Fate

theorem conformer_has_calculation_errors_false (c : Conformer)
    (h : ∀ f ∈ ErrField.fields, errValueIsOk f (c.errors f) = true) :
    conformer_has_calculation_errors c = false := by
  rw [conformer_has_calculation_errors, Bool.not_eq_false', List.all_eq_true]
  exact h

theorem conformer_has_calculation_errors_true (c : Conformer) (f : ErrField)
    (hf : f ∈ ErrField.fields) (h : errValueIsOk f (c.errors f) = false) :
    conformer_has_calculation_errors c = true := by
  rw [conformer_has_calculation_errors, Bool.not_eq_true', List.all_eq_false]
  exact ⟨f, hf, by rw [h]; exact Bool.false_ne_true⟩

/-- Claim C3 (amended): `error_nsvg09` is the unique error field with
polarity inverted relative to the others — for it, zero means success and
any nonzero value means error, while zero is an error value for every
other field — and for a non-duplicate record with stage-2 results, no
geometry-optimization failure and every other field at its success
sentinel, `determine_fate` returns `FATE_CALCULATION_WITH_ERROR` exactly
when `error_nsvg09` is nonzero and `FATE_SUCCESS` when it is zero. -/
theorem fate_inverted_polarity :
    (∀ f : ErrField, errValueIsOk f 0 = true ↔ f = .error_nsvg09) ∧
    (∀ v : ℤ, errValueIsOk .error_nsvg09 v = true ↔ v = 0) ∧
    (∀ c : Conformer, c.duplicated_by = 0 → c.has_stage2_properties = true →
      c.errors .error_nstat1 = 1 →
      (∀ f : ErrField, f ≠ .error_nstat1 → f ≠ .error_nsvg09 →
        errValueIsOk f (c.errors f) = true) →
      (c.errors .error_nsvg09 ≠ 0 →
        determine_fate c = .FATE_CALCULATION_WITH_ERROR) ∧
      (c.errors .error_nsvg09 = 0 → determine_fate c = .FATE_SUCCESS)) := by
  refine ⟨fun f => by cases f <;> simp [errValueIsOk],
    fun v => by simp [errValueIsOk], ?_⟩
  intro c hdup hs2 hnstat hok
  have hfate : determine_fate c =
      (if conformer_has_calculation_errors c then .FATE_CALCULATION_WITH_ERROR
       else .FATE_SUCCESS) := by
    rw [determine_fate, if_neg (by rw [hdup]; exact Nat.lt_irrefl 0),
      if_neg (by rw [hnstat]; exact (by decide : (1 : ℤ) ≠ 2)),
      if_neg (by rw [hnstat]; exact (by decide : (1 : ℤ) ≠ 5)),
      if_neg (by rw [hnstat]; exact (by decide : (1 : ℤ) ≠ 4)),
      if_neg (by rw [hnstat]; exact (by decide : (1 : ℤ) ≠ 6)), hs2]
    rfl
  constructor
  · intro hv
    rw [hfate, conformer_has_calculation_errors_true c .error_nsvg09
      (by simp [ErrField.fields]) (by simp [errValueIsOk, hv])]
    rfl
  · intro hv
    rw [hfate, conformer_has_calculation_errors_false c ?_]
    · rfl
    · intro f _
      by_cases h1 : f = .error_nstat1
      · subst h1; simp [errValueIsOk, hnstat]
      · by_cases h9 : f = .error_nsvg09
        · subst h9; simp [errValueIsOk, hv]
        · exact hok f h1 h9

/-- Witness for C3 at concrete records: every field at 1 trips the
inverted-polarity field, every field at its success sentinel does not. -/
theorem fate_inverted_polarity_witness :
    determine_fate sampleNsvgOne = .FATE_CALCULATION_WITH_ERROR ∧
    determine_fate sampleClean = .FATE_SUCCESS := by
  constructor
  · exact (fate_inverted_polarity.2.2 sampleNsvgOne rfl rfl rfl
      (fun f h1 h9 => by
        cases f <;> simp_all [errValueIsOk, sampleNsvgOne, nsvg09OneErrors])).1
      (by decide)
  · exact (fate_inverted_polarity.2.2 sampleClean rfl rfl rfl
      (fun f h1 h9 => by
        cases f <;> simp_all [errValueIsOk, sampleClean, okErrors])).2 rfl

/-- Counterexample to C3 as stated: with every error field at value 1
(`error_nsvg09` nonzero), the record is classified
`FATE_CALCULATION_WITH_ERROR` — a nonzero value of the inverted-polarity
field signals an error, not success — and with `error_nsvg09` at zero the
record is classified `FATE_SUCCESS`, not `FATE_CALCULATION_WITH_ERROR`. -/
theorem fate_inverted_polarity_counterexample :
    conformer_has_calculation_errors sampleNsvgOne = true ∧
    determine_fate sampleNsvgOne = .FATE_CALCULATION_WITH_ERROR ∧
    conformer_has_calculation_errors sampleClean = false ∧
    determine_fate sampleClean = .FATE_SUCCESS := by
  refine ⟨by decide, by decide, by decide, by decide⟩

/-- Claim C9: in fate classification the geometry-optimization status
field `error_nstat1` has non-error sentinel 1 and the value 3 is also
treated as success: a non-duplicate record with `error_nstat1 = 3` and no
other error is classified neither as a geometry failure nor as a
calculation error; and the fixed failure table maps each table value to
exactly one of the four geometry-failure fates. -/
theorem fate_nstat1_quirks :
    (errValueIsOk .error_nstat1 1 = true ∧
     errValueIsOk .error_nstat1 3 = true) ∧
    (∀ c : Conformer, c.duplicated_by = 0 → c.errors .error_nstat1 = 3 →
      (∀ f : ErrField, f ≠ .error_nstat1 →
        errValueIsOk f (c.errors f) = true) →
      conformer_has_calculation_errors c = false ∧
      determine_fate c = (if c.has_stage2_properties then .FATE_SUCCESS
                          else .FATE_NO_CALCULATION_RESULTS)) ∧
    (∀ c : Conformer, c.duplicated_by = 0 →
      (c.errors .error_nstat1 = 2 →
        determine_fate c = .FATE_GEOMETRY_OPTIMIZATION_PROBLEM) ∧
      (c.errors .error_nstat1 = 5 → determine_fate c = .FATE_DISASSOCIATED) ∧
      (c.errors .error_nstat1 = 4 →
        determine_fate c = .FATE_FORCE_CONSTANT_FAILURE) ∧
      (c.errors .error_nstat1 = 6 → determine_fate c = .FATE_DISCARDED_OTHER)) ∧
    (∀ (v : ℤ) (t : FateCategory), geometryFailureFate v = some t →
      t = .FATE_GEOMETRY_OPTIMIZATION_PROBLEM ∨ t = .FATE_DISASSOCIATED ∨
      t = .FATE_FORCE_CONSTANT_FAILURE ∨ t = .FATE_DISCARDED_OTHER) := by
  refine ⟨⟨rfl, rfl⟩, ?_, ?_, ?_⟩
  · intro c hdup hnstat hok
    have herr : conformer_has_calculation_errors c = false := by
      apply conformer_has_calculation_errors_false
      intro f _
      by_cases h1 : f = .error_nstat1
      · subst h1; simp [errValueIsOk, hnstat]
      · exact hok f h1
    refine ⟨herr, ?_⟩
    rw [determine_fate, if_neg (by rw [hdup]; exact Nat.lt_irrefl 0),
      if_neg (by rw [hnstat]; exact (by decide : (3 : ℤ) ≠ 2)),
      if_neg (by rw [hnstat]; exact (by decide : (3 : ℤ) ≠ 5)),
      if_neg (by rw [hnstat]; exact (by decide : (3 : ℤ) ≠ 4)),
      if_neg (by rw [hnstat]; exact (by decide : (3 : ℤ) ≠ 6)), herr]
    cases c.has_stage2_properties <;> rfl
  · intro c hdup
    have hd : ¬ 0 < c.duplicated_by := by rw [hdup]; exact Nat.lt_irrefl 0
    refine ⟨fun h2 => ?_, fun h5 => ?_, fun h4 => ?_, fun h6 => ?_⟩
    · rw [determine_fate, if_neg hd, if_pos h2]
    · rw [determine_fate, if_neg hd,
        if_neg (by rw [h5]; exact (by decide : (5 : ℤ) ≠ 2)), if_pos h5]
    · rw [determine_fate, if_neg hd,
        if_neg (by rw [h4]; exact (by decide : (4 : ℤ) ≠ 2)),
        if_neg (by rw [h4]; exact (by decide : (4 : ℤ) ≠ 5)), if_pos h4]
    · rw [determine_fate, if_neg hd,
        if_neg (by rw [h6]; exact (by decide : (6 : ℤ) ≠ 2)),
        if_neg (by rw [h6]; exact (by decide : (6 : ℤ) ≠ 5)),
        if_neg (by rw [h6]; exact (by decide : (6 : ℤ) ≠ 4)), if_pos h6]
  · intro v t h
    rw [geometryFailureFate.eq_def] at h
    split at h <;> simp_all

/-- Witness for C9 at a concrete record with `error_nstat1 = 3`. -/
theorem fate_nstat1_quirks_witness :
    conformer_has_calculation_errors sampleNstatThree = false ∧
    determine_fate sampleNstatThree = .FATE_SUCCESS := by
  have h := (fate_nstat1_quirks.2.1 sampleNstatThree rfl rfl
    (fun f h1 => by
      cases f <;> simp_all [errValueIsOk, sampleNstatThree, nstat1ThreeErrors]))
  exact ⟨h.1, h.2⟩

end Smu.Fate

namespace Smu.Pipeline

theorem merge_duplicate_step_skip (cid : ℕ) (acc c : Conformer)
    (hid : c.conformer_id = cid) :
    merge_duplicate_step cid acc c = .ok acc := by
  rw [merge_duplicate_step, if_pos hid]

theorem merge_duplicate_step_bad_dup (cid : ℕ) (acc c : Conformer)
    (hid : c.conformer_id ≠ cid) (hdup : c.duplicated_by ≠ cid) :
    merge_duplicate_step cid acc c =
      .error "Conformer should have duplicated_by conformer_id" := by
  simp [merge_duplicate_step, hid, hdup]

theorem merge_duplicate_step_same_topo (cid : ℕ) (acc c : Conformer)
    (g : Geometry) (gs : List Geometry)
    (hid : c.conformer_id ≠ cid) (hdup : c.duplicated_by = cid)
    (htopo : cid / 1000 = c.conformer_id / 1000)
    (hg : c.initial_geometries = g :: gs) :
    merge_duplicate_step cid acc c =
      .ok { acc with
            duplicate_of := acc.duplicate_of ++ [c.conformer_id],
            initial_geometries := acc.initial_geometries ++ [g] } := by
  simp [merge_duplicate_step, hid, hdup, htopo, hg]

theorem merge_duplicate_step_missing_geom (cid : ℕ) (acc c : Conformer)
    (hid : c.conformer_id ≠ cid) (hdup : c.duplicated_by = cid)
    (htopo : cid / 1000 = c.conformer_id / 1000)
    (hg : c.initial_geometries = []) :
    merge_duplicate_step cid acc c =
      .error "IndexError: initial_geometries is empty" := by
  simp [merge_duplicate_step, hid, hdup, htopo, hg]

theorem merge_duplicate_step_diff_topo (cid : ℕ) (acc c : Conformer)
    (hid : c.conformer_id ≠ cid) (hdup : c.duplicated_by = cid)
    (htopo : ¬ cid / 1000 = c.conformer_id / 1000) :
    merge_duplicate_step cid acc c =
      .ok { acc with
            duplicate_of := acc.duplicate_of ++ [c.conformer_id] } := by
  simp [merge_duplicate_step, hid, hdup, htopo]

theorem foldlM_merge_duplicate_ok (cid : ℕ) (l : List Conformer)
    (hdup : ∀ c ∈ l, c.conformer_id ≠ cid → c.duplicated_by = cid)
    (hgeom : ∀ c ∈ l, c.conformer_id ≠ cid →
      cid / 1000 = c.conformer_id / 1000 → c.initial_geometries ≠ []) :
    ∀ acc : Conformer,
      l.foldlM (merge_duplicate_step cid) acc =
        .ok { acc with
              duplicate_of := acc.duplicate_of ++ absorbed_ids cid l,
              initial_geometries := acc.initial_geometries
                ++ absorbed_same_topology_geometries cid l } := by
  induction l with
  | nil =>
    intro acc
    show Except.ok acc = _
    simp [absorbed_ids, absorbed_same_topology_geometries]
  | cons c t ih =>
    intro acc
    have hdup' : ∀ x ∈ t, x.conformer_id ≠ cid → x.duplicated_by = cid :=
      fun x hx => hdup x (List.mem_cons_of_mem c hx)
    have hgeom' : ∀ x ∈ t, x.conformer_id ≠ cid →
        cid / 1000 = x.conformer_id / 1000 → x.initial_geometries ≠ [] :=
      fun x hx => hgeom x (List.mem_cons_of_mem c hx)
    rw [List.foldlM_cons]
    by_cases hid : c.conformer_id = cid
    · rw [merge_duplicate_step_skip cid acc c hid]
      show t.foldlM (merge_duplicate_step cid) acc = _
      rw [ih hdup' hgeom' acc]
      simp [absorbed_ids, absorbed_same_topology_geometries, hid]
    · have hd := hdup c (List.mem_cons_self c t) hid
      by_cases htopo : cid / 1000 = c.conformer_id / 1000
      · obtain ⟨g, gs, hg⟩ : ∃ g gs, c.initial_geometries = g :: gs := by
          cases hcg : c.initial_geometries with
          | nil => exact absurd hcg (hgeom c (List.mem_cons_self c t) hid htopo)
          | cons g gs => exact ⟨g, gs, rfl⟩
        rw [merge_duplicate_step_same_topo cid acc c g gs hid hd htopo hg]
        show t.foldlM (merge_duplicate_step cid) _ = _
        rw [ih hdup' hgeom' _]
        simp [absorbed_ids, absorbed_same_topology_geometries, hid, htopo, hg]
      · rw [merge_duplicate_step_diff_topo cid acc c hid hd htopo]
        show t.foldlM (merge_duplicate_step cid) _ = _
        rw [ih hdup' hgeom' _]
        simp [absorbed_ids, absorbed_same_topology_geometries, hid, htopo]

end Smu.Pipeline

namespace Smu.Pipeline

theorem foldlM_merge_duplicate_missing_geom (cid : ℕ) (l : List Conformer)
    (hdup : ∀ c ∈ l, c.conformer_id ≠ cid → c.duplicated_by = cid)
    (hbad : ∃ c ∈ l, c.conformer_id ≠ cid ∧
      cid / 1000 = c.conformer_id / 1000 ∧ c.initial_geometries = []) :
    ∀ acc : Conformer,
      l.foldlM (merge_duplicate_step cid) acc =
        .error "IndexError: initial_geometries is empty" := by
  induction l with
  | nil => exact absurd hbad (by simp)
  | cons c t ih =>
    intro acc
    have hdup' : ∀ x ∈ t, x.conformer_id ≠ cid → x.duplicated_by = cid :=
      fun x hx => hdup x (List.mem_cons_of_mem c hx)
    rw [List.foldlM_cons]
    by_cases hc : c.conformer_id ≠ cid ∧
        cid / 1000 = c.conformer_id / 1000 ∧ c.initial_geometries = []
    · rw [merge_duplicate_step_missing_geom cid acc c hc.1
        (hdup c (List.mem_cons_self c t) hc.1) hc.2.1 hc.2.2]
      rfl
    · have hbad' : ∃ x ∈ t, x.conformer_id ≠ cid ∧
          cid / 1000 = x.conformer_id / 1000 ∧ x.initial_geometries = [] := by
        rcases hbad with ⟨x, hx, hxprop⟩
        rcases List.mem_cons.mp hx with rfl | hxt
        · exact absurd hxprop hc
        · exact ⟨x, hxt, hxprop⟩
      by_cases hid : c.conformer_id = cid
      · rw [merge_duplicate_step_skip cid acc c hid]
        exact ih hdup' hbad' acc
      · have hd := hdup c (List.mem_cons_self c t) hid
        by_cases htopo : cid / 1000 = c.conformer_id / 1000
        · obtain ⟨g, gs, hg⟩ : ∃ g gs, c.initial_geometries = g :: gs := by
            cases hcg : c.initial_geometries with
            | nil => exact absurd ⟨hid, htopo, hcg⟩ hc
            | cons g gs => exact ⟨g, gs, rfl⟩
          rw [merge_duplicate_step_same_topo cid acc c g gs hid hd htopo hg]
          exact ih hdup' hbad' _
        · rw [merge_duplicate_step_diff_topo cid acc c hid hd htopo]
          exact ih hdup' hbad' _

/-- Claim C7 (amended): the consistency check of the duplicate resolver
counts the members whose id equals the group key (irrespective of their
`duplicated_by` field): when the number of such members is not exactly
one, `merge_duplicate_information` fails with the `ValueError` and
produces no output record for the group. -/
theorem merge_duplicate_information_requires_unique_main (cid : ℕ)
    (conformers : List Conformer)
    (h : (conformers.filter (fun c => c.conformer_id = cid)).length ≠ 1) :
    merge_duplicate_information cid conformers =
      .error "Expected 1 conformers with id" := by
  rw [merge_duplicate_information.eq_def]
  split
  · rename_i main heq
    exact absurd (by rw [heq]; rfl) h
  · rfl

/-- Witness for C7 at a concrete group with two id-matching members. -/
theorem merge_duplicate_information_requires_unique_main_witness :
    merge_duplicate_information 618451001 [samplePrimary, samplePrimary] =
      .error "Expected 1 conformers with id" :=
  merge_duplicate_information_requires_unique_main 618451001
    [samplePrimary, samplePrimary] (by decide)

/-- Counterexample to C7 as stated: a group (keyed by an absorbed record's
own id) in which zero members are a primary in the claim's sense — no
member has `duplicated_by` unset and id equal to the key — is resolved
without error: the code's check only counts members whose id equals the
key, so the absorbed record itself passes and is returned. -/
theorem merge_duplicate_information_zero_primaries_counterexample :
    ([sampleDupSame].filter
      (fun c => c.duplicated_by = 0 ∧ c.conformer_id = 618451002)).length = 0
    ∧ merge_duplicate_information 618451002 [sampleDupSame] =
        .ok sampleDupSame := by
  exact ⟨by decide, rfl⟩

theorem absorbed_same_topology_geometries_length (cid : ℕ)
    (l : List Conformer)
    (hgeom : ∀ c ∈ l, c.conformer_id ≠ cid →
      cid / 1000 = c.conformer_id / 1000 → c.initial_geometries ≠ []) :
    (absorbed_same_topology_geometries cid l).length =
      (l.filter (fun c => c.conformer_id ≠ cid ∧
        cid / 1000 = c.conformer_id / 1000)).length := by
  induction l with
  | nil => rfl
  | cons c t ih =>
    have iht := ih (fun x hx => hgeom x (List.mem_cons_of_mem c hx))
    by_cases hcond : c.conformer_id ≠ cid ∧ cid / 1000 = c.conformer_id / 1000
    · obtain ⟨g, gs, hg⟩ : ∃ g gs, c.initial_geometries = g :: gs := by
        cases hcg : c.initial_geometries with
        | nil =>
          exact absurd hcg (hgeom c (List.mem_cons_self c t) hcond.1 hcond.2)
        | cons g gs => exact ⟨g, gs, rfl⟩
      have hfc : (fun x : Conformer =>
          if x.conformer_id ≠ cid ∧ cid / 1000 = x.conformer_id / 1000
          then x.initial_geometries.head? else none) c = some g := by
        show (if c.conformer_id ≠ cid ∧ cid / 1000 = c.conformer_id / 1000
              then c.initial_geometries.head? else none) = some g
        rw [if_pos hcond, hg]
        rfl
      rw [absorbed_same_topology_geometries,
        @List.filterMap_cons_some Conformer Geometry
          (fun x : Conformer =>
            if x.conformer_id ≠ cid ∧ cid / 1000 = x.conformer_id / 1000
            then x.initial_geometries.head? else none) c t g hfc,
        @List.filter_cons_of_pos Conformer
          (fun x : Conformer =>
            decide (x.conformer_id ≠ cid ∧
              cid / 1000 = x.conformer_id / 1000)) c t
          (decide_eq_true hcond),
        List.length_cons, List.length_cons,
        ← absorbed_same_topology_geometries, iht]
    · have hfc : (fun x : Conformer =>
          if x.conformer_id ≠ cid ∧ cid / 1000 = x.conformer_id / 1000
          then x.initial_geometries.head? else none) c = none := by
        show (if c.conformer_id ≠ cid ∧ cid / 1000 = c.conformer_id / 1000
              then c.initial_geometries.head? else none) = none
        exact if_neg hcond
      rw [absorbed_same_topology_geometries,
        @List.filterMap_cons_none Conformer Geometry
          (fun x : Conformer =>
            if x.conformer_id ≠ cid ∧ cid / 1000 = x.conformer_id / 1000
            then x.initial_geometries.head? else none) c t hfc,
        @List.filter_cons_of_neg Conformer
          (fun x : Conformer =>
            decide (x.conformer_id ≠ cid ∧
              cid / 1000 = x.conformer_id / 1000)) c t
          (by simp [hcond]),
        ← absorbed_same_topology_geometries, iht]

/-- Claim C8: resolving a well-formed duplicate group — one member carrying
the key id, every other member pointing at the key via `duplicated_by`,
every absorbed same-topology member having at least one initial geometry —
appends each absorbed member's id to the primary's `duplicate_of`, appends
the first initial geometry of each absorbed member sharing the key's
id-derived bond topology to the primary's `initial_geometries` (so that
list grows by exactly the number of same-topology duplicates), and copies
no geometry from absorbed members with a different topology. -/
theorem merge_duplicate_information_absorbs (cid : ℕ)
    (conformers : List Conformer) (main : Conformer)
    (hmain : conformers.filter (fun c => c.conformer_id = cid) = [main])
    (hdup : ∀ c ∈ conformers, c.conformer_id ≠ cid → c.duplicated_by = cid)
    (hgeom : ∀ c ∈ conformers, c.conformer_id ≠ cid →
      cid / 1000 = c.conformer_id / 1000 → c.initial_geometries ≠ []) :
    merge_duplicate_information cid conformers =
      .ok { main with
            duplicate_of := main.duplicate_of ++ absorbed_ids cid conformers,
            initial_geometries := main.initial_geometries
              ++ absorbed_same_topology_geometries cid conformers } ∧
    (main.duplicate_of ++ absorbed_ids cid conformers).length
      = main.duplicate_of.length
        + (conformers.filter (fun c => c.conformer_id ≠ cid)).length ∧
    (main.initial_geometries
      ++ absorbed_same_topology_geometries cid conformers).length
      = main.initial_geometries.length
        + (conformers.filter (fun c => c.conformer_id ≠ cid ∧
            cid / 1000 = c.conformer_id / 1000)).length := by
  refine ⟨?_, ?_, ?_⟩
  · rw [merge_duplicate_information, hmain]
    exact foldlM_merge_duplicate_ok cid conformers hdup hgeom main
  · rw [List.length_append, absorbed_ids, List.length_map]
  · rw [List.length_append,
      absorbed_same_topology_geometries_length cid conformers hgeom]

end Smu.Pipeline

namespace Smu.Pipeline

/-- Witness for C8 at a concrete group: a primary, two same-topology
absorbed records and one different-topology absorbed record. -/
theorem merge_duplicate_information_absorbs_witness :
    merge_duplicate_information 618451001
      [samplePrimary, sampleDupSame, sampleDupSame2, sampleDupDiff] =
      .ok { samplePrimary with
            duplicate_of := samplePrimary.duplicate_of ++ absorbed_ids 618451001
              [samplePrimary, sampleDupSame, sampleDupSame2, sampleDupDiff],
            initial_geometries := samplePrimary.initial_geometries
              ++ absorbed_same_topology_geometries 618451001
                [samplePrimary, sampleDupSame, sampleDupSame2, sampleDupDiff] } ∧
    (samplePrimary.duplicate_of ++ absorbed_ids 618451001
      [samplePrimary, sampleDupSame, sampleDupSame2, sampleDupDiff]).length
      = samplePrimary.duplicate_of.length
        + ([samplePrimary, sampleDupSame, sampleDupSame2,
            sampleDupDiff].filter
              (fun c => c.conformer_id ≠ 618451001)).length ∧
    (samplePrimary.initial_geometries
      ++ absorbed_same_topology_geometries 618451001
        [samplePrimary, sampleDupSame, sampleDupSame2, sampleDupDiff]).length
      = samplePrimary.initial_geometries.length
        + ([samplePrimary, sampleDupSame, sampleDupSame2,
            sampleDupDiff].filter
              (fun c => c.conformer_id ≠ 618451001 ∧
                618451001 / 1000 = c.conformer_id / 1000)).length :=
  merge_duplicate_information_absorbs 618451001
    [samplePrimary, sampleDupSame, sampleDupSame2, sampleDupDiff]
    samplePrimary rfl (by decide) (by decide)

/-- Claim C10: the duplicate resolver reads the first element of each
absorbed same-topology member's `initial_geometries`: when a well-formed
group has an absorbed same-topology member with no initial geometry the
resolution fails with the index error instead of returning a record, and
when every absorbed same-topology member has at least one initial
geometry the resolution returns a record. -/
theorem merge_duplicate_information_first_geometry :
    (∀ (cid : ℕ) (conformers : List Conformer) (main : Conformer),
      conformers.filter (fun c => c.conformer_id = cid) = [main] →
      (∀ c ∈ conformers, c.conformer_id ≠ cid → c.duplicated_by = cid) →
      (∃ c ∈ conformers, c.conformer_id ≠ cid ∧
        cid / 1000 = c.conformer_id / 1000 ∧ c.initial_geometries = []) →
      merge_duplicate_information cid conformers =
        .error "IndexError: initial_geometries is empty") ∧
    (∀ (cid : ℕ) (conformers : List Conformer) (main : Conformer),
      conformers.filter (fun c => c.conformer_id = cid) = [main] →
      (∀ c ∈ conformers, c.conformer_id ≠ cid → c.duplicated_by = cid) →
      (∀ c ∈ conformers, c.conformer_id ≠ cid →
        cid / 1000 = c.conformer_id / 1000 → c.initial_geometries ≠ []) →
      ∃ result, merge_duplicate_information cid conformers = .ok result) := by
  constructor
  · intro cid conformers main hmain hdup hbad
    rw [merge_duplicate_information, hmain]
    exact foldlM_merge_duplicate_missing_geom cid conformers hdup hbad main
  · intro cid conformers main hmain hdup hgeom
    refine ⟨{ main with
              duplicate_of := main.duplicate_of ++ absorbed_ids cid conformers,
              initial_geometries := main.initial_geometries
                ++ absorbed_same_topology_geometries cid conformers }, ?_⟩
    rw [merge_duplicate_information, hmain]
    exact foldlM_merge_duplicate_ok cid conformers hdup hgeom main

/-- Witness for C10 at a concrete group whose absorbed same-topology
member has no initial geometry. -/
theorem merge_duplicate_information_first_geometry_witness :
    merge_duplicate_information 618451001 [samplePrimary, sampleDupNoGeom] =
      .error "IndexError: initial_geometries is empty" :=
  merge_duplicate_information_first_geometry.1 618451001
    [samplePrimary, sampleDupNoGeom] samplePrimary rfl (by decide)
    ⟨sampleDupNoGeom, by decide, by decide, by decide, rfl⟩

end Smu.Pipeline

namespace Smu.Pipeline

theorem duplicate_pass_group (confs : List Conformer) (k : ℕ) :
    ((confs.flatMap generate_keyed_conformers_for_duplicates).filter
        (fun p => p.1 = k)).map Prod.snd =
      confs.flatMap (fun c =>
        (if c.conformer_id = k then [c] else []) ++
        (if 0 < c.duplicated_by ∧ c.duplicated_by = k then [c] else [])) := by
  induction confs with
  | nil => rfl
  | cons c t ih =>
    rw [List.flatMap_cons, List.flatMap_cons, List.filter_append,
      List.map_append, ih]
    congr 1
    rw [generate_keyed_conformers_for_duplicates]
    by_cases h2 : 0 < c.duplicated_by
    · rw [if_pos h2]
      by_cases h3 : c.duplicated_by = k
      · have hk : 0 < k := h3 ▸ h2
        by_cases h1 : c.conformer_id = k <;>
          simp [List.filter_cons, h1, h3, h2, hk]
      · by_cases h1 : c.conformer_id = k <;>
          simp [List.filter_cons, h1, h3, h2]
    · rw [if_neg h2]
      by_cases h1 : c.conformer_id = k <;>
        simp [List.filter_cons, h1, h2]

theorem flatMap_ite_singleton (k : ℕ) (a : Conformer) (l : List Conformer) :
    l.flatMap (fun c => if c.conformer_id = k then [a] else []) =
      (l.filter (fun c => c.conformer_id = k)).map (fun _ => a) := by
  induction l with
  | nil => rfl
  | cons c t ih =>
    by_cases h : c.conformer_id = k <;>
      simp [List.flatMap_cons, List.filter_cons, h, ih]

theorem filter_id_eq_of_nodup (l : List Conformer) (a : Conformer)
    (hnodup : (l.map Conformer.conformer_id).Nodup) (ha : a ∈ l) :
    l.filter (fun c => c.conformer_id = a.conformer_id) = [a] := by
  induction l with
  | nil => cases ha
  | cons c t ih =>
    rw [List.map_cons, List.nodup_cons] at hnodup
    rcases List.mem_cons.mp ha with rfl | hat
    · have hrest : t.filter (fun x => x.conformer_id = a.conformer_id)
          = [] := by
        rw [List.filter_eq_nil_iff]
        intro x hx hxe
        exact hnodup.1 (List.mem_map.mpr
          ⟨x, hx, by simpa using hxe⟩)
      simp [List.filter_cons, hrest]
    · have hcne : c.conformer_id ≠ a.conformer_id := by
        intro he
        exact hnodup.1 (he ▸ List.mem_map.mpr ⟨a, hat, rfl⟩)
      simp [List.filter_cons, hcne, ih hnodup.2 hat]

/-- Claim C2 (amended): the duplicate-resolution pass emits exactly one
record per distinct grouping key (its output key list has no duplicate),
but it does not discard absorbed records: a record with `duplicated_by`
set is emitted again, unchanged, under its own id — with `duplicated_by`
still set.  (Non-primary records are only dropped later, by the
standard-view filter, not by this pass.)  Preconditions: conformer ids are
distinct and every record pointed at by a `duplicated_by` is itself a
primary. -/
theorem duplicate_pass_keeps_absorbed (confs : List Conformer)
    (hnodup : (confs.map Conformer.conformer_id).Nodup)
    (hprim : ∀ c ∈ confs, ∀ d ∈ confs,
      c.duplicated_by = d.conformer_id → d.duplicated_by = 0) :
    ((duplicate_pass confs).map Prod.fst).Nodup ∧
    (∀ a ∈ confs, a.duplicated_by ≠ 0 →
      (a.conformer_id, Except.ok a) ∈ duplicate_pass confs) := by
  constructor
  · have hfst : (duplicate_pass confs).map Prod.fst =
        ((confs.flatMap generate_keyed_conformers_for_duplicates).map
          Prod.fst).dedup := by
      simp [duplicate_pass, List.map_map, Function.comp_def]
    rw [hfst]
    exact List.nodup_dedup _
  · intro a ha hdup0
    have hgroup : ((confs.flatMap
        generate_keyed_conformers_for_duplicates).filter
          (fun p => p.1 = a.conformer_id)).map Prod.snd = [a] := by
      rw [duplicate_pass_group]
      have hcontrib : ∀ c ∈ confs,
          ((if c.conformer_id = a.conformer_id then [c] else []) ++
           (if 0 < c.duplicated_by ∧ c.duplicated_by = a.conformer_id
            then [c] else []))
          = (if c.conformer_id = a.conformer_id then [a] else []) := by
        intro c hc
        by_cases hceq : c.conformer_id = a.conformer_id
        · have hca : c = a :=
            List.inj_on_of_nodup_map hnodup hc ha hceq
          subst hca
          have hnd : ¬(0 < c.duplicated_by ∧
              c.duplicated_by = c.conformer_id) :=
            fun hcd => hdup0 (hprim c hc c hc hcd.2)
          rw [if_pos hceq, if_neg hnd, List.append_nil]
        · have hnd : ¬(0 < c.duplicated_by ∧
              c.duplicated_by = a.conformer_id) :=
            fun hcd => hdup0 (hprim c hc a ha hcd.2)
          rw [if_neg hceq, List.nil_append, if_neg hnd, if_neg hceq]
      calc confs.flatMap (fun c =>
              (if c.conformer_id = a.conformer_id then [c] else []) ++
              (if 0 < c.duplicated_by ∧ c.duplicated_by = a.conformer_id
               then [c] else []))
          = confs.flatMap (fun c =>
              if c.conformer_id = a.conformer_id then [a] else []) := by
            rw [List.flatMap, List.flatMap]
            rw [List.map_congr_left hcontrib]
        _ = (confs.filter
              (fun c => c.conformer_id = a.conformer_id)).map (fun _ => a) :=
            flatMap_ite_singleton a.conformer_id a confs
        _ = [a] := by rw [filter_id_eq_of_nodup confs a hnodup ha]; rfl
    have hmerge : merge_duplicate_information a.conformer_id [a] =
        .ok a := by
      have hf : List.filter
          (fun c => decide (c.conformer_id = a.conformer_id)) [a] = [a] := by
        simp [List.filter_cons]
      rw [merge_duplicate_information, hf]
      show List.foldlM (merge_duplicate_step a.conformer_id) a [a] =
        Except.ok a
      rw [List.foldlM_cons, merge_duplicate_step_skip a.conformer_id a a rfl]
      rfl
    have hkey : a.conformer_id ∈ ((confs.flatMap
        generate_keyed_conformers_for_duplicates).map Prod.fst).dedup := by
      rw [List.mem_dedup]
      refine List.mem_map.mpr ⟨(a.conformer_id, a), ?_, rfl⟩
      refine List.mem_flatMap.mpr ⟨a, ha, ?_⟩
      rw [generate_keyed_conformers_for_duplicates]
      exact List.mem_cons_self _ _
    have hmem : (a.conformer_id,
        merge_duplicate_information a.conformer_id
          (((confs.flatMap generate_keyed_conformers_for_duplicates).filter
            (fun p => p.1 = a.conformer_id)).map Prod.snd))
        ∈ duplicate_pass confs := by
      rw [duplicate_pass]
      exact List.mem_map.mpr ⟨a.conformer_id, hkey, rfl⟩
    rw [hgroup, hmerge] at hmem
    exact hmem

end Smu.Pipeline

namespace Smu.Pipeline

/-- Witness for C2 (amended) at a concrete primary/duplicate pair. -/
theorem duplicate_pass_keeps_absorbed_witness :
    ((duplicate_pass [samplePrimary, sampleDupSame]).map Prod.fst).Nodup ∧
    (∀ a ∈ [samplePrimary, sampleDupSame], a.duplicated_by ≠ 0 →
      (a.conformer_id, Except.ok a)
        ∈ duplicate_pass [samplePrimary, sampleDupSame]) :=
  duplicate_pass_keeps_absorbed [samplePrimary, sampleDupSame]
    (by decide) (by decide)

/-- Counterexample to C2 as stated: resolving a primary together with one
absorbed record does not discard the absorbed record — the pass emits it
again under its own id, with `duplicated_by` still set to the primary's
id, alongside the properly merged primary. -/
theorem duplicate_pass_counterexample :
    duplicate_pass [samplePrimary, sampleDupSame] =
      [(618451002, .ok sampleDupSame),
       (618451001, .ok { samplePrimary with
                         duplicate_of := [618451002],
                         initial_geometries := [sampleGeomA, sampleGeomB] })]
    ∧ sampleDupSame.duplicated_by = 618451001 :=
  ⟨rfl, rfl⟩

end Smu.Pipeline

namespace Smu.Summary

theorem merge_two_summaries_ok (s0 s1 : BondTopologySummary)
    (h : s0.bond_topology.bond_topology_id
          = s1.bond_topology.bond_topology_id) :
    merge_two_summaries s0 s1 =
      .ok ⟨s0.bond_topology,
           fun name => s0.counts name + s1.counts name⟩ := by
  rw [merge_two_summaries, if_pos h]

theorem foldlM_merge_summaries (btid : ℕ) (t : List BondTopologySummary) :
    ∀ s : BondTopologySummary,
    s.bond_topology.bond_topology_id = btid →
    (∀ x ∈ t, x.bond_topology.bond_topology_id = btid) →
    t.foldlM merge_two_summaries s =
      .ok ⟨s.bond_topology,
           fun name => s.counts name + ((t.map countsOf).sum) name⟩ := by
  induction t with
  | nil =>
    intro s hs ht
    show Except.ok s = _
    have hz : (fun name => s.counts name
        + ((([] : List BondTopologySummary).map countsOf).sum) name)
        = s.counts := funext fun n => by simp
    rw [hz]
  | cons x t ih =>
    intro s hs ht
    rw [List.foldlM_cons, merge_two_summaries_ok s x
      (by rw [hs, ht x (List.mem_cons_self x t)])]
    show t.foldlM merge_two_summaries
      ⟨s.bond_topology, fun name => s.counts name + x.counts name⟩ = _
    rw [ih ⟨s.bond_topology, fun name => s.counts name + x.counts name⟩ hs
      (fun y hy => ht y (List.mem_cons_of_mem x hy))]
    refine congrArg Except.ok
      (congrArg (BondTopologySummary.mk s.bond_topology)
        (funext fun n => ?_))
    show (s.counts n + x.counts n) + ((t.map countsOf).sum) n
        = s.counts n + (((x :: t).map countsOf).sum) n
    rw [List.map_cons, List.sum_cons, Pi.add_apply, add_assoc]
    rfl

theorem merge_bond_topology_summaries_cons (btid : ℕ)
    (s : BondTopologySummary) (t : List BondTopologySummary)
    (hs : s.bond_topology.bond_topology_id = btid)
    (ht : ∀ x ∈ t, x.bond_topology.bond_topology_id = btid) :
    merge_bond_topology_summaries (s :: t) =
      .ok (some ⟨s.bond_topology, ((s :: t).map countsOf).sum⟩) := by
  show (t.foldlM merge_two_summaries s).map some = _
  rw [foldlM_merge_summaries btid t s hs ht]
  show Except.ok (some (BondTopologySummary.mk s.bond_topology
    (fun name => s.counts name + ((t.map countsOf).sum) name))) = _
  refine congrArg Except.ok (congrArg some
    (congrArg (BondTopologySummary.mk s.bond_topology)
      (funext fun n => ?_)))
  show s.counts n + ((t.map countsOf).sum) n
      = (((s :: t).map countsOf).sum) n
  rw [List.map_cons, List.sum_cons, Pi.add_apply]
  rfl

end Smu.Summary

namespace Smu.Summary

theorem reducedCounts_perm (btid : ℕ) (l₁ l₂ : List BondTopologySummary)
    (h1 : ∀ x ∈ l₁, x.bond_topology.bond_topology_id = btid)
    (hp : l₁.Perm l₂) :
    reducedCounts l₁ = reducedCounts l₂ := by
  have h2 : ∀ x ∈ l₂, x.bond_topology.bond_topology_id = btid :=
    fun x hx => h1 x (hp.mem_iff.mpr hx)
  have hsum : (l₁.map countsOf).sum = (l₂.map countsOf).sum :=
    (hp.map countsOf).sum_eq
  match l₁, l₂, hp with
  | [], [], _ => rfl
  | [], s2 :: t2, hp => exact absurd hp.symm.eq_nil (by simp)
  | s1 :: t1, [], hp => exact absurd hp.eq_nil (by simp)
  | s1 :: t1, s2 :: t2, hp =>
    rw [reducedCounts, reducedCounts,
      merge_bond_topology_summaries_cons btid s1 t1
        (h1 s1 (List.mem_cons_self s1 t1))
        (fun y hy => h1 y (List.mem_cons_of_mem s1 hy)),
      merge_bond_topology_summaries_cons btid s2 t2
        (h2 s2 (List.mem_cons_self s2 t2))
        (fun y hy => h2 y (List.mem_cons_of_mem s2 hy))]
    show Except.ok (some (((s1 :: t1).map countsOf).sum))
        = Except.ok (some (((s2 :: t2).map countsOf).sum))
    rw [hsum]

/-- Claim C5: combining two `BondTopologySummary` values with equal
topology id sums every named counter field-wise; the combine is
commutative and associative on the counters, with the all-zero
bare-enumeration summary as an identity; and reducing any list of
summaries for one topology id yields counters invariant under any
reordering of the list. -/
theorem merge_bond_topology_summaries_algebra :
    (∀ s0 s1 : BondTopologySummary,
      s0.bond_topology.bond_topology_id
        = s1.bond_topology.bond_topology_id →
      merge_two_summaries s0 s1 =
        .ok ⟨s0.bond_topology,
             fun name => s0.counts name + s1.counts name⟩) ∧
    (∀ s0 s1 : BondTopologySummary,
      s0.bond_topology.bond_topology_id
        = s1.bond_topology.bond_topology_id →
      (merge_two_summaries s0 s1).map countsOf
        = (merge_two_summaries s1 s0).map countsOf) ∧
    (∀ s0 s1 s2 : BondTopologySummary,
      s0.bond_topology.bond_topology_id
        = s1.bond_topology.bond_topology_id →
      s1.bond_topology.bond_topology_id
        = s2.bond_topology.bond_topology_id →
      (merge_two_summaries s0 s1).bind
          (fun r => merge_two_summaries r s2)
        = (merge_two_summaries s1 s2).bind
            (fun r => merge_two_summaries s0 r)) ∧
    (∀ (s : BondTopologySummary) (bt : BondTopology),
      bt.bond_topology_id = s.bond_topology.bond_topology_id →
      merge_two_summaries s (bare_summary bt) = .ok s ∧
      (merge_two_summaries (bare_summary bt) s).map countsOf
        = .ok s.counts) ∧
    (∀ (btid : ℕ) (l₁ l₂ : List BondTopologySummary),
      (∀ x ∈ l₁, x.bond_topology.bond_topology_id = btid) →
      l₁.Perm l₂ → reducedCounts l₁ = reducedCounts l₂) := by
  refine ⟨merge_two_summaries_ok, ?_, ?_, ?_, reducedCounts_perm⟩
  · intro s0 s1 h
    rw [merge_two_summaries_ok s0 s1 h, merge_two_summaries_ok s1 s0 h.symm]
    show Except.ok (fun name => s0.counts name + s1.counts name)
        = Except.ok (fun name => s1.counts name + s0.counts name)
    exact congrArg Except.ok (funext fun n => add_comm _ _)
  · intro s0 s1 s2 h01 h12
    rw [merge_two_summaries_ok s0 s1 h01, merge_two_summaries_ok s1 s2 h12]
    show merge_two_summaries
        ⟨s0.bond_topology, fun name => s0.counts name + s1.counts name⟩ s2
      = merge_two_summaries s0
          ⟨s1.bond_topology, fun name => s1.counts name + s2.counts name⟩
    rw [merge_two_summaries_ok
        ⟨s0.bond_topology, fun name => s0.counts name + s1.counts name⟩ s2
        (h01.trans h12),
      merge_two_summaries_ok s0
        ⟨s1.bond_topology, fun name => s1.counts name + s2.counts name⟩ h01]
    exact congrArg Except.ok
      (congrArg (BondTopologySummary.mk s0.bond_topology)
        (funext fun n => add_assoc (s0.counts n) (s1.counts n) (s2.counts n)))
  · intro s bt h
    constructor
    · rw [merge_two_summaries_ok s (bare_summary bt) h.symm]
      exact congrArg Except.ok
        ((congrArg (BondTopologySummary.mk s.bond_topology)
          (funext fun n => add_zero (s.counts n))).trans rfl)
    · rw [merge_two_summaries_ok (bare_summary bt) s h]
      show Except.ok (fun name => (0 : ℤ) + s.counts name) = .ok s.counts
      exact congrArg Except.ok (funext fun n => zero_add (s.counts n))

/-- Witness for C5 at two concrete summaries for topology 618451. -/
theorem merge_bond_topology_summaries_algebra_witness :
    merge_two_summaries sampleSummaryA sampleSummaryB =
      .ok ⟨sampleSummaryA.bond_topology,
           fun name => sampleSummaryA.counts name
             + sampleSummaryB.counts name⟩ ∧
    merge_two_summaries sampleSummaryA
        (bare_summary sampleSummaryA.bond_topology) = .ok sampleSummaryA :=
  ⟨merge_bond_topology_summaries_algebra.1 sampleSummaryA sampleSummaryB rfl,
   (merge_bond_topology_summaries_algebra.2.2.2.1 sampleSummaryA
     sampleSummaryA.bond_topology rfl).1⟩

end Smu.Summary
